import Mathlib

/-!
Verification of `validate_NMS.py` (ALFA fusion-engine driver).

Shallow embedding conventions:
* numpy float scores and thresholds are modelled with `ℚ`;
* a pickled per-detector detection dump, already decoded, is a
  `List DetectorImage` (one entry per image, in file order); the dict
  `detectors_full_detections` with keys `0..n-1` is a
  `List (List DetectorImage)` indexed by detector id;
* `exit(1)` after a printed message, and an uncaught Python exception, are both
  modelled as `Except.error` carrying the message, so `Except.ok` means the
  function returned normally;
* the external collaborators `ALFA.ALFA_result` (the fuser) and
  `Computation_mAP.compute_map` (the evaluator) are not part of this file;
  they enter as opaque-to-us function parameters `Fuser` and `MapComp`, so
  every theorem below holds for an arbitrary fuser and evaluator;
* each entry of `alfa_parameters_dict` is, in the JSON, a one-element list
  whose `[0]` is taken (`select_threshold` and `single` are used without the
  subscript, which numpy broadcasting makes equivalent for the comparison);
  the record `AlfaParams` stores the scalar values directly. Method names and
  the confidence style are kept as raw strings exactly because the script
  never validates them.
-/

/-- A bounding box, `[xmin, ymin, xmax, ymax]`; kept as a list of rationals. -/
abbrev Box := List ℚ

/-- One image entry of one detector's pickled dump:
`(image filename, bounding boxes, labels, class_scores)`. -/
structure DetectorImage where
  name : String
  boxes : List Box
  labels : List ℕ
  class_scores : List (List ℚ)
  deriving DecidableEq

instance : Inhabited DetectorImage := ⟨⟨"", [], [], []⟩⟩

/-- The triple returned by `alfa.ALFA_result` and also the shape of the empty
arrays appended when no detection survives filtering (lines 165-167). -/
structure FusedOut where
  boxes : List Box
  labels : List ℕ
  class_scores : List (List ℚ)
  deriving DecidableEq

/-- The `np.array([])` triple of lines 165-167. -/
def emptyFused : FusedOut := ⟨[], [], []⟩

/-- The decoded `alfa_parameters_dict`. Fusion-method names and the confidence
style stay raw strings: the script performs no validation on them. -/
structure AlfaParams where
  tau : ℚ
  gamma : ℚ
  bounding_box_fusion_method : String
  class_scores_fusion_method : String
  add_empty_detections : Bool
  epsilon : ℚ
  same_labels_only : Bool
  confidence_style : String
  use_BC : Bool
  max_1_box_per_detector : Bool
  single : Bool
  select_threshold : ℚ
  deriving DecidableEq

/-- Line 143: `cl_sc[i, 1:][l[i]]` — the class-score row of detection `i`
with its background slot (column 0) dropped, indexed by the predicted label.
An out-of-range index, an `IndexError` in the source, is modelled by the
default `0`. Note the style parameter plays no part here. -/
def scoreAt (d : DetectorImage) (i : ℕ) : ℚ :=
  ((d.class_scores.getD i []).drop 1).getD (d.labels.getD i 0) 0

/-- Line 144: `np.where(scores > select_threshold)[0]` over
`range(len(l))` — the indices of detections whose score strictly exceeds the
threshold, in ascending order. -/
def keptIndices (p : AlfaParams) (d : DetectorImage) : List ℕ :=
  (List.range d.labels.length).filter fun i => p.select_threshold < scoreAt d i

/-- Lines 139-148 for a single detector key: the guard `len(...[1]) > 0`, the
index selection, and the `len(indices) > 0` guard; `some` corresponds to the
three dict entries being assigned, `none` to the key staying absent. -/
def filterOne (p : AlfaParams) (d : DetectorImage) :
    Option (List Box × List ℕ × List (List ℚ)) :=
  if 0 < d.boxes.length then
    let idx := keptIndices p d
    if 0 < idx.length then
      some (idx.map fun i => d.boxes.getD i [],
            idx.map fun i => d.labels.getD i 0,
            idx.map fun i => d.class_scores.getD i [])
    else none
  else none

/-- Lines 134-148: the `bounding_boxes` / `labels` / `class_scores` dicts for
image `j`, as an association list over detector keys in insertion order
(`detectors_full_detections.keys()` is `0..n-1`). -/
def imageFiltered (p : AlfaParams) (dets : List (List DetectorImage)) (j : ℕ) :
    List (ℕ × (List Box × List ℕ × List (List ℚ))) :=
  (List.range dets.length).filterMap fun k =>
    Option.map (fun t => (k, t)) (filterOne p ((dets.getD k []).getD j default))

/-- The external `alfa.ALFA_result`: receives the whole parameter record (the
script passes each field positionally) and the filtered per-detector data. -/
abbrev Fuser := AlfaParams → List (ℕ × (List Box × List ℕ × List (List ℚ))) → FusedOut

/-- The external `map_computation.compute_map`, abstracted to its dependence
on the fused detection list. -/
abbrev MapComp := List (String × FusedOut) → ℚ

/-- Line 131: the loop bound `len(detectors_full_detections[0])`. -/
def numImages (dets : List (List DetectorImage)) : ℕ :=
  (dets.getD 0 []).length

/-- Line 132: `imagename = detectors_full_detections[0][j][0]` — always read
from detector 0. -/
def imgName (dets : List (List DetectorImage)) (j : ℕ) : String :=
  ((dets.getD 0 []).getD j default).name

/-- Lines 132-169, one loop iteration: the appended tuple for image `j`
(first component) and whether `alfa.ALFA_result` was invoked, i.e. whether
`time_count` was incremented (second component). The fuser is called exactly
when the filtered dict is non-empty (line 150). -/
def perImage (fuser : Fuser) (p : AlfaParams) (dets : List (List DetectorImage))
    (j : ℕ) : (String × FusedOut) × Bool :=
  let imagename := imgName dets j
  let filtered := imageFiltered p dets j
  if filtered.isEmpty then ((imagename, emptyFused), false)
  else ((imagename, fuser p filtered), true)

/-- Lines 126-169: the `alfa_full_detections` list handed to
`compute_map`, one entry per image of detector 0, in loop order. -/
def alfa_full_detections (fuser : Fuser) (p : AlfaParams)
    (dets : List (List DetectorImage)) : List (String × FusedOut) :=
  (List.range (numImages dets)).map fun j => (perImage fuser p dets j).1

/-- Lines 125 and 163: `time_count`, the number of images on which the fuser
ran. -/
def time_count (fuser : Fuser) (p : AlfaParams)
    (dets : List (List DetectorImage)) : ℕ :=
  ((List.range (numImages dets)).filter fun j => (perImage fuser p dets j).2).length

/-- Message of line 59. -/
def emptyMsg : String := "Detections even for one detector were not provided!"

/-- Message of line 68. -/
def sizeMsg : String :=
  "All detections files should provide detections for the same amount of images with same names!"

/-- The uncaught exception of line 178 when `time_count` is zero. -/
def zeroDivMsg : String := "ZeroDivisionError: float division by zero"

/-- Lines 62-66: `check_size_sim` — every detector reports as many images as
detector 0 (the source loops from index 1; index 0 holds trivially). -/
def sizes_ok (dets : List (List DetectorImage)) : Bool :=
  (List.range dets.length).all fun i =>
    (dets.getD i []).length == (dets.getD 0 []).length

/-- Lines 50-70, after unpickling: empty input exits with the line-59 message,
a size mismatch exits with the line-68 message; image names are never
inspected. -/
def read_detectors_full_detections (dets : List (List DetectorImage)) :
    Except String (List (List DetectorImage)) :=
  if dets.length = 0 then Except.error emptyMsg
  else if sizes_ok dets then Except.ok dets
  else Except.error sizeMsg

/-- Lines 183-186, after file reading and JSON decoding (pure I/O): the
decoded dictionary is returned as-is; no field is validated. -/
def parse_alfa_parameters_json (p : AlfaParams) : Except String AlfaParams :=
  Except.ok p

/-- Lines 121-180: the per-image loop, then `compute_map` (line 174), then the
average-ensemble-time print (line 178), which raises `ZeroDivisionError` when
`time_count` is zero — in that case the function never returns. On success the
mAP output and the fused list are returned. -/
def validate_ALFA (fuser : Fuser) (mapComp : MapComp) (p : AlfaParams)
    (dets : List (List DetectorImage)) :
    Except String (ℚ × List (String × FusedOut)) :=
  let full := alfa_full_detections fuser p dets
  if time_count fuser p dets = 0 then Except.error zeroDivMsg
  else Except.ok (mapComp full, full)

/-- Lines 231-245 (`main`), restricted to the detection path: parse the
parameter JSON, read the detection dumps, then run `validate_ALFA`; each
`Except.error` short-circuits what follows, as `exit(1)` / an exception does. -/
def runPipeline (fuser : Fuser) (mapComp : MapComp) (p : AlfaParams)
    (dets : List (List DetectorImage)) :
    Except String (ℚ × List (String × FusedOut)) :=
  (parse_alfa_parameters_json p).bind fun p2 =>
    (read_detectors_full_detections dets).bind fun d =>
      validate_ALFA fuser mapComp p2 d

/-- Python equality between a `str` and a `bool`: values of different types
never compare equal under `==`, so line 191's `value == True` is always
`False`. -/
def pyStrEqBool (_s : String) (_b : Bool) : Bool := false

/-- Lines 189-196: membership test, then the always-false `value == True`
comparison; unknown strings raise `argparse.ArgumentTypeError`. -/
def check_flag (value : String) : Except String Bool :=
  if value ∈ ["True", "False"] then
    if pyStrEqBool value true then Except.ok true else Except.ok false
  else Except.error (value ++ " is an invalid flag value, use True or False!")

/-- Modelled from the spec: the per-detection confidence of spec section 4.3,
which section 4.4 says drives the `select_threshold` filter. `ONE MINUS NO
OBJECT` is one minus the background/no-object entry (slot 0 of the score row);
`LABEL` is the class-score entry at the predicted label, read past the
background slot as the code does. This definition exists only to be compared
with the filter the source actually implements. -/
def specConfidence (style : String) (cl_sc : List ℚ) (label : ℕ) : ℚ :=
  if style = "ONE MINUS NO OBJECT" then 1 - cl_sc.getD 0 0
  else (cl_sc.drop 1).getD label 0

/-- Modelled from the spec: the indices the spec section 4.4 filter would
keep — those whose section 4.3 confidence exceeds the threshold. -/
def specKeptIndices (style : String) (thr : ℚ) (d : DetectorImage) : List ℕ :=
  (List.range d.labels.length).filter fun i =>
    thr < specConfidence style (d.class_scores.getD i []) (d.labels.getD i 0)

/-- Blank out an image name, leaving the detection payload untouched. -/
def eraseName (d : DetectorImage) : DetectorImage :=
  { d with name := "" }

/-- Blank out every image name reported by detectors `1..n-1`, keeping
detector 0 intact. -/
def eraseTailNames : List (List DetectorImage) → List (List DetectorImage)
  | [] => []
  | d0 :: rest => d0 :: rest.map fun l => l.map eraseName

/-- A concrete fuser for witnesses: ignores everything. -/
def constFuser : Fuser := fun _ _ => emptyFused

/-- A concrete evaluator for witnesses: ignores everything. -/
def constMap : MapComp := fun _ => 0

/-- A concrete, in-range parameter record for witnesses. -/
def P0 : AlfaParams :=
  { tau := mkRat 1 2, gamma := mkRat 1 5, bounding_box_fusion_method := "AVERAGE",
    class_scores_fusion_method := "AVERAGE", add_empty_detections := false,
    epsilon := 0, same_labels_only := false, confidence_style := "LABEL",
    use_BC := false, max_1_box_per_detector := false, single := true,
    select_threshold := mkRat 1 2 }

/-- One detector, one image, no detections at all. -/
def dEmpty : List (List DetectorImage) := [[⟨"x", [], [], []⟩]]

/-- Parameters configured with the ONE MINUS NO OBJECT confidence style. -/
def styleParams : AlfaParams :=
  { P0 with confidence_style := "ONE MINUS NO OBJECT",
            select_threshold := mkRat 3 10 }

/-- A detection whose no-object score is high (0.5) but whose label score
(0.2, read past the background slot) is below the 0.3 threshold. -/
def cexImg : DetectorImage :=
  ⟨"00000.png", [[0, 0, 1, 1]], [0], [[mkRat 1 2, mkRat 1 5, mkRat 3 10]]⟩

/-- A detection whose score equals the 0.5 threshold exactly. -/
def dEq : DetectorImage := ⟨"img", [[0, 0, 1, 1]], [0], [[0, mkRat 1 2]]⟩

/-- Two detectors, one image each, equal counts but different image names. -/
def dets5 : List (List DetectorImage) :=
  [[⟨"a", [[0, 0, 1, 1]], [0], [[0, 1]]⟩],
   [⟨"b", [[0, 0, 1, 1]], [0], [[0, 1]]⟩]]

/-- Two detectors reporting different numbers of images (1 versus 0). -/
def dets4 : List (List DetectorImage) := [[⟨"a", [], [], []⟩], []]

/-- An out-of-range, nonsense-method parameter record. -/
def bogusParams : AlfaParams :=
  { tau := 2, gamma := 3, bounding_box_fusion_method := "FROBNICATE",
    class_scores_fusion_method := "NONSENSE", add_empty_detections := true,
    epsilon := 7, same_labels_only := true, confidence_style := "WHATEVER",
    use_BC := true, max_1_box_per_detector := true, single := true,
    select_threshold := -1 }

/-- One detector, one image, one detection that survives any threshold
below 0.5. -/
def dets7 : List (List DetectorImage) :=
  [[⟨"img0", [[0, 0, 1, 1]], [0], [[mkRat 1 2, mkRat 1 2]]⟩]]

deriving instance DecidableEq for Except

lemma except_bind_ok {ε α β : Type} (a : α) (f : α → Except ε β) :
    (Except.ok a : Except ε α).bind f = f a := rfl

lemma mem_keptIndices_iff (p : AlfaParams) (d : DetectorImage) (i : ℕ) :
    i ∈ keptIndices p d ↔ i < d.labels.length ∧ p.select_threshold < scoreAt d i := by
  simp [keptIndices, List.mem_filter, List.mem_range]

lemma perImage_fst_fst (fuser : Fuser) (p : AlfaParams)
    (dets : List (List DetectorImage)) (j : ℕ) :
    (perImage fuser p dets j).1.1 = imgName dets j := by
  by_cases h : (imageFiltered p dets j).isEmpty <;> simp [perImage, h]

lemma perImage_snd (fuser : Fuser) (p : AlfaParams)
    (dets : List (List DetectorImage)) (j : ℕ) :
    (perImage fuser p dets j).2 = !(imageFiltered p dets j).isEmpty := by
  by_cases h : (imageFiltered p dets j).isEmpty <;> simp [perImage, h]

lemma alfa_full_getD (fuser : Fuser) (p : AlfaParams)
    (dets : List (List DetectorImage)) (j : ℕ) (hj : j < numImages dets) :
    (alfa_full_detections fuser p dets).getD j ("", emptyFused) =
      (perImage fuser p dets j).1 := by
  unfold alfa_full_detections
  rw [List.getD_eq_getElem?_getD, List.getElem?_map, List.getElem?_range hj]
  rfl

lemma sizes_ok_iff (dets : List (List DetectorImage)) :
    sizes_ok dets = true ↔ ∀ i, i < dets.length →
      (dets.getD i []).length = (dets.getD 0 []).length := by
  simp [sizes_ok, List.all_eq_true, List.mem_range]

/-- C1: FALSE as stated. The filter of lines 143-144 never consults the
configured `confidence_style`: with the style set to ONE MINUS NO OBJECT, a
detection whose spec-side confidence (one minus the no-object entry, 0.5)
exceeds the 0.3 threshold is nonetheless discarded, because the code always
uses the label-entry score (0.2). -/
theorem C1_counterexample :
    styleParams.confidence_style = "ONE MINUS NO OBJECT"
    ∧ (0 : ℕ) ∈ specKeptIndices styleParams.confidence_style
        styleParams.select_threshold cexImg
    ∧ keptIndices styleParams cexImg = []
    ∧ filterOne styleParams cexImg = none := by
  have h1 : styleParams.select_threshold <
      specConfidence styleParams.confidence_style
        (cexImg.class_scores.getD 0 []) (cexImg.labels.getD 0 0) := by
    show mkRat 3 10 <
      specConfidence "ONE MINUS NO OBJECT" [mkRat 1 2, mkRat 1 5, mkRat 3 10] 0
    unfold specConfidence
    rw [if_pos rfl]
    norm_num [Rat.mkRat_eq_div]
  refine ⟨rfl, ?_, by decide, by decide⟩
  simp only [specKeptIndices, List.mem_filter, List.mem_range]
  exact ⟨by decide, decide_eq_true h1⟩

/-- C1 (amended): the confidence the Fusion Engine filters against
`select_threshold` is always the class-score entry at the predicted label
(read past the background slot), whatever `confidence_style` says; the style
setting has no effect on filtering and is merely forwarded to the fuser. -/
theorem C1_filter_ignores_confidence_style (p : AlfaParams) (s : String)
    (d : DetectorImage) :
    keptIndices { p with confidence_style := s } d = keptIndices p d
    ∧ filterOne { p with confidence_style := s } d = filterOne p d
    ∧ ∀ i, i ∈ keptIndices p d ↔
        i < d.labels.length ∧ p.select_threshold < scoreAt d i :=
  ⟨rfl, rfl, fun i => mem_keptIndices_iff p d i⟩

/-- C3: a detection is kept for clustering and fusion exactly when its
confidence strictly exceeds `select_threshold` (line 144 uses a strict `>`);
a detection whose confidence equals the threshold is discarded. -/
theorem C3_strict_threshold (p : AlfaParams) (d : DetectorImage) (i : ℕ) :
    (i ∈ keptIndices p d ↔ i < d.labels.length ∧ scoreAt d i > p.select_threshold)
    ∧ (scoreAt d i = p.select_threshold → i ∉ keptIndices p d) := by
  refine ⟨mem_keptIndices_iff p d i, fun he hk => ?_⟩
  have h2 := (mem_keptIndices_iff p d i).mp hk
  rw [he] at h2
  exact lt_irrefl _ h2.2

/-- C3 witness: a concrete detection whose score equals the threshold exactly
is discarded. -/
theorem C3_witness :
    scoreAt dEq 0 = P0.select_threshold ∧ 0 ∉ keptIndices P0 dEq :=
  ⟨by decide, (C3_strict_threshold P0 dEq 0).2 (by decide)⟩

/-- C6: with an empty list of detection dumps, the run aborts with the
line-59 message before any processing (`exit(1)` is the `Except.error`). -/
theorem C6_empty_input_fatal (fuser : Fuser) (mapComp : MapComp) (p : AlfaParams) :
    runPipeline fuser mapComp p [] = Except.error emptyMsg
    ∧ read_detectors_full_detections [] = Except.error emptyMsg :=
  ⟨rfl, rfl⟩

/-- C8: `check_flag` succeeds exactly on the strings True and False, and — due
to line 191 comparing a str against the bool True, which is always false in
Python — returns `False` for both accepted inputs. -/
theorem C8_check_flag_spec :
    (∀ v, (check_flag v).isOk = true ↔ v ∈ ["True", "False"])
    ∧ check_flag "True" = Except.ok false
    ∧ check_flag "False" = Except.ok false := by
  refine ⟨fun v => ?_, rfl, rfl⟩
  unfold check_flag
  by_cases h : v ∈ ["True", "False"] <;>
    simp [h, Except.isOk, Except.toBool, pyStrEqBool]

/-- C2: when no detection of any detector survives the threshold for an
image, the loop appends the empty-array tuple of lines 165-167 under detector
0's image name, and `alfa.ALFA_result` is not invoked (the invocation flag is
`false` and the result is the same for every fuser). -/
theorem C2_empty_filtered_skips_fuser (p : AlfaParams)
    (dets : List (List DetectorImage)) (j : ℕ)
    (h : imageFiltered p dets j = []) (fuser : Fuser) :
    perImage fuser p dets j = ((imgName dets j, emptyFused), false)
    ∧ (j < numImages dets →
        (alfa_full_detections fuser p dets).getD j ("", emptyFused) =
          (imgName dets j, emptyFused)) := by
  have he : (imageFiltered p dets j).isEmpty = true := by rw [h]; rfl
  constructor
  · simp [perImage, he]
  · intro hj
    rw [alfa_full_getD fuser p dets j hj]
    simp [perImage, he]

/-- C2 witness: a concrete image with no detections yields the empty tuple
without fuser involvement. -/
theorem C2_witness :
    perImage constFuser P0 dEmpty 0 = ((imgName dEmpty 0, emptyFused), false) :=
  (C2_empty_filtered_skips_fuser P0 dEmpty 0 (by decide) constFuser).1

/-- C4: whenever some detector reports a different number of images than
detector 0, the pipeline stops at `read_detectors_full_detections` with the
line-68 message (a non-zero `exit`), so neither fusion nor evaluation runs. -/
theorem C4_size_mismatch_fatal (dets : List (List DetectorImage))
    (h : ∃ i, i < dets.length ∧
      (dets.getD i []).length ≠ (dets.getD 0 []).length)
    (fuser : Fuser) (mapComp : MapComp) (p : AlfaParams) :
    runPipeline fuser mapComp p dets = Except.error sizeMsg
    ∧ read_detectors_full_detections dets = Except.error sizeMsg := by
  obtain ⟨i, hi, hne⟩ := h
  have h0 : ¬ dets.length = 0 := by omega
  have hs : ¬ sizes_ok dets = true := fun hs =>
    hne ((sizes_ok_iff dets).mp hs i hi)
  have hr : read_detectors_full_detections dets = Except.error sizeMsg := by
    unfold read_detectors_full_detections
    rw [if_neg h0, if_neg hs]
  refine ⟨?_, hr⟩
  unfold runPipeline parse_alfa_parameters_json
  rw [except_bind_ok, hr]
  rfl

/-- C4 witness: two detectors reporting 1 and 0 images abort the run. -/
theorem C4_witness :
    runPipeline constFuser constMap P0 dets4 = Except.error sizeMsg :=
  (C4_size_mismatch_fatal dets4 ⟨1, by decide, by decide⟩
    constFuser constMap P0).1

/-- C5: FALSE as stated. Two detectors that report the same number of images
under different names pass `read_detectors_full_detections` and the whole
pipeline runs to completion: image names are never compared. -/
theorem C5_counterexample :
    imgName dets5 0 = "a"
    ∧ ((dets5.getD 1 []).getD 0 default).name = "b"
    ∧ read_detectors_full_detections dets5 = Except.ok dets5
    ∧ (runPipeline constFuser constMap P0 dets5).isOk = true := by decide

/-- C5 (amended): the consistency check of lines 58-69 accepts an input
exactly when it is non-empty and every detector reports as many images as
detector 0; image names play no part (mismatched names are silently accepted
and detector 0's names are the ones used downstream, see C10). -/
theorem C5_size_only_check (dets : List (List DetectorImage)) :
    (read_detectors_full_detections dets).isOk = true ↔
      dets ≠ [] ∧ ∀ i, i < dets.length →
        (dets.getD i []).length = (dets.getD 0 []).length := by
  unfold read_detectors_full_detections
  by_cases h0 : dets.length = 0
  · have hnil : dets = [] := List.length_eq_zero.mp h0
    subst hnil
    rw [if_pos h0]
    exact iff_of_false (by decide) fun hq => hq.1 rfl
  · have hne : dets ≠ [] := fun hnil => h0 (by simp [hnil])
    rw [if_neg h0]
    by_cases hs : sizes_ok dets = true
    · rw [if_pos hs]
      exact iff_of_true rfl ⟨hne, (sizes_ok_iff dets).mp hs⟩
    · rw [if_neg hs]
      exact iff_of_false (by decide) fun hq => hs ((sizes_ok_iff dets).mpr hq.2)

/-- C7: FALSE as stated. A parameter record with an unknown fusion method and
out-of-range thresholds passes `parse_alfa_parameters_json` untouched and the
pipeline completes per-image processing (the fuser runs once): nothing is
validated at construction time. -/
theorem C7_counterexample :
    parse_alfa_parameters_json bogusParams = Except.ok bogusParams
    ∧ (runPipeline constFuser constMap bogusParams dets7).isOk = true
    ∧ time_count constFuser bogusParams dets7 = 1 := by decide

/-- C7 (amended): the script performs no configuration validation at all:
`parse_alfa_parameters_json` returns the decoded record unchanged for every
input, and the only fatal outcomes of the pipeline are the two input errors
of lines 59 and 68 and the division by zero of line 178 — never a
configuration error; invalid method strings flow into per-image processing. -/
theorem C7_no_config_validation :
    (∀ p, parse_alfa_parameters_json p = Except.ok p)
    ∧ ∀ (fuser : Fuser) (mapComp : MapComp) (p : AlfaParams)
        (dets : List (List DetectorImage)) (e : String),
        runPipeline fuser mapComp p dets = Except.error e →
        e = emptyMsg ∨ e = sizeMsg ∨ e = zeroDivMsg := by
  refine ⟨fun _ => rfl, ?_⟩
  intro fuser mapComp p dets e h
  unfold runPipeline parse_alfa_parameters_json at h
  rw [except_bind_ok] at h
  unfold read_detectors_full_detections at h
  by_cases h0 : dets.length = 0
  · rw [if_pos h0] at h
    cases h
    exact Or.inl rfl
  · rw [if_neg h0] at h
    by_cases hs : sizes_ok dets = true
    · rw [if_pos hs, except_bind_ok] at h
      unfold validate_ALFA at h
      by_cases ht : time_count fuser p dets = 0
      · simp only [ht, if_pos rfl] at h
        cases h
        exact Or.inr (Or.inr rfl)
      · rw [if_neg ht] at h
        cases h
    · rw [if_neg hs] at h
      cases h
      exact Or.inr (Or.inl rfl)

/-- C7 witness: the error classification applied to the concrete empty-input
failure. -/
theorem C7_witness :
    runPipeline constFuser constMap P0 ([] : List (List DetectorImage)) =
      Except.error emptyMsg
    ∧ (emptyMsg = emptyMsg ∨ emptyMsg = sizeMsg ∨ emptyMsg = zeroDivMsg) :=
  ⟨rfl, C7_no_config_validation.2 constFuser constMap P0 [] emptyMsg rfl⟩

/-- C9: `validate_ALFA` returns normally only if at least one image has a
non-empty filtered set; when every image filters to nothing, `time_count`
stays 0 and the line-178 average-time computation raises `ZeroDivisionError`
after the mAP computation, so the function fails instead of returning. -/
theorem C9_divzero_when_no_image_fused (fuser : Fuser) (mapComp : MapComp)
    (p : AlfaParams) (dets : List (List DetectorImage)) :
    (((List.range (numImages dets)).all fun j =>
        (imageFiltered p dets j).isEmpty) = true →
      validate_ALFA fuser mapComp p dets = Except.error zeroDivMsg)
    ∧ ∀ r, validate_ALFA fuser mapComp p dets = Except.ok r →
        ∃ j, j < numImages dets ∧ imageFiltered p dets j ≠ [] := by
  constructor
  · intro hall
    have h0 : time_count fuser p dets = 0 := by
      unfold time_count
      rw [List.length_eq_zero, List.filter_eq_nil_iff]
      intro j hj
      rw [perImage_snd]
      have := List.all_eq_true.mp hall j hj
      simp [this]
    simp [validate_ALFA, h0]
  · intro r hr
    unfold validate_ALFA at hr
    by_cases h0 : time_count fuser p dets = 0
    · rw [if_pos h0] at hr
      cases hr
    · have hne : ((List.range (numImages dets)).filter
          fun j => (perImage fuser p dets j).2) ≠ [] := by
        intro hnil
        exact h0 (by unfold time_count; rw [hnil]; rfl)
      obtain ⟨j, hj⟩ := List.exists_mem_of_ne_nil _ hne
      have hj2 := List.mem_filter.mp hj
      refine ⟨j, List.mem_range.mp hj2.1, fun hnil => ?_⟩
      have hb := hj2.2
      rw [perImage_snd, hnil] at hb
      simp at hb

/-- C9 witness: on a dataset whose single image has no detections,
`validate_ALFA` raises the division-by-zero error. -/
theorem C9_witness :
    validate_ALFA constFuser constMap P0 dEmpty = Except.error zeroDivMsg :=
  (C9_divzero_when_no_image_fused constFuser constMap P0 dEmpty).1 (by decide)

lemma getD_map_of_fixed {α : Type} (f : α → α) (d : α) (hf : f d = d)
    (l : List α) (n : ℕ) : (l.map f).getD n d = f (l.getD n d) := by
  induction l generalizing n with
  | nil => simpa using hf.symm
  | cons a t ih =>
    cases n with
    | zero => rfl
    | succ m => simpa using ih m

lemma eraseTail_getD_zero (dets : List (List DetectorImage)) :
    (eraseTailNames dets).getD 0 [] = dets.getD 0 [] := by
  cases dets <;> rfl

lemma numImages_eraseTail (dets : List (List DetectorImage)) :
    numImages (eraseTailNames dets) = numImages dets := by
  unfold numImages
  rw [eraseTail_getD_zero]

lemma imgName_eraseTail (dets : List (List DetectorImage)) (j : ℕ) :
    imgName (eraseTailNames dets) j = imgName dets j := by
  unfold imgName
  rw [eraseTail_getD_zero]

lemma length_eraseTail (dets : List (List DetectorImage)) :
    (eraseTailNames dets).length = dets.length := by
  cases dets <;> simp [eraseTailNames]

lemma imageFiltered_eraseTail (p : AlfaParams)
    (dets : List (List DetectorImage)) (j : ℕ) :
    imageFiltered p (eraseTailNames dets) j = imageFiltered p dets j := by
  unfold imageFiltered
  rw [length_eraseTail]
  apply List.filterMap_congr
  intro k _
  congr 1
  cases dets with
  | nil => rfl
  | cons d0 rest =>
    cases k with
    | zero => rfl
    | succ m =>
      show filterOne p
          (((rest.map fun l => l.map eraseName).getD m []).getD j default) = _
      rw [getD_map_of_fixed (fun l => l.map eraseName) [] rfl rest m,
          getD_map_of_fixed eraseName default rfl (rest.getD m []) j]
      rfl

lemma perImage_eraseTail (fuser : Fuser) (p : AlfaParams)
    (dets : List (List DetectorImage)) (j : ℕ) :
    perImage fuser p (eraseTailNames dets) j = perImage fuser p dets j := by
  simp only [perImage, imageFiltered_eraseTail, imgName_eraseTail]

lemma alfa_full_eraseTail (fuser : Fuser) (p : AlfaParams)
    (dets : List (List DetectorImage)) :
    alfa_full_detections fuser p (eraseTailNames dets) =
      alfa_full_detections fuser p dets := by
  unfold alfa_full_detections
  rw [numImages_eraseTail]
  apply List.map_congr_left
  intro j _
  rw [perImage_eraseTail]

/-- C10: for every input passing the consistency check, the fused list handed
to the evaluator has exactly one entry per image of detector 0, in detector
0's order; entry `j`'s image name is detector 0's name at position `j`; and
blanking every image name reported by detectors `1..n-1` leaves the output
unchanged — those names never influence it. -/
theorem C10_output_follows_detector0 (fuser : Fuser) (p : AlfaParams)
    (dets : List (List DetectorImage))
    (_h : (read_detectors_full_detections dets).isOk = true) :
    (alfa_full_detections fuser p dets).length = numImages dets
    ∧ (∀ j, j < numImages dets →
        ((alfa_full_detections fuser p dets).getD j ("", emptyFused)).1 =
          imgName dets j)
    ∧ alfa_full_detections fuser p (eraseTailNames dets) =
        alfa_full_detections fuser p dets := by
  refine ⟨by simp [alfa_full_detections], fun j hj => ?_,
    alfa_full_eraseTail fuser p dets⟩
  rw [alfa_full_getD fuser p dets j hj, perImage_fst_fst]

/-- C10 witness: the shape property applied to the concrete two-detector
input with mismatched names. -/
theorem C10_witness :
    (alfa_full_detections constFuser P0 dets5).length = numImages dets5 :=
  (C10_output_follows_detector0 constFuser P0 dets5 (by decide)).1
